import Mathlib

/-!
Verification of the TikTok monitor script (`src/monitor.py`).

The script polls a fixed set of accounts, normalizes the fetched posts into
video records, upserts them into a SQLite ledger (`Database`), and sends a
Slack alert the first time a video's view count reaches a threshold.

The embedding below is a shallow model of the Python code:

* the SQLite table `videos` becomes an association list `Ledger` keyed by
  `video_id` (the primary key guarantees at most one row per key, so the
  association-list representation keeps at most one entry per key);
* `Database.should_alert`, `Database.save` and `Database.mark_sent` become
  pure functions on `Ledger`.  Crucially, `save` models SQLite
  `INSERT OR REPLACE` faithfully: the conflicting row is deleted and a fresh
  row is inserted, and since the column list omits `alert_sent`, the new row
  gets the column default `0` (false);
* `send_slack_alert` becomes a total function over an abstract HTTP layer
  `post : String → HttpResult` (the Python function catches every exception
  and returns a boolean, so totality is the faithful model);
* `get_videos`'s normalization loop becomes `get_videos` over an abstract
  content-metadata store `content : String → Option ContentMeta`
  (`none` models a missing `temp/content_metadata/<id>.json` file);
* `main`'s per-video body, per-account loop and configuration guards become
  `processVideo`, `processVideos`, `mainLoop` and `mainRun`.  External
  observable actions (scraper fetches, webhook POSTs) are recorded in a trace
  of `Effect`s; a storage exception inside `Database.save` is modelled by the
  oracle `failSave`, and the `try/except/continue` around each account's body
  is modelled by `processVideos` aborting the rest of the account's list
  while `mainLoop` continues with the next account;
* the `ACCOUNTS` environment parsing (Python
  `[acc.strip() for acc in s.split(',') if acc.strip()]`) becomes
  `parseAccounts` over `List Char`, with `splitComma` modelling
  `str.split(',')` (single-character separator, empty pieces kept) and
  `pyStrip` modelling `str.strip()` (Python's whitespace set).
-/

namespace Monitor

/-- A row of the `videos` table: `username`, `views`, `alert_sent`
(`INTEGER DEFAULT 0`, read as a boolean) and `checked_at` (a timestamp,
abstracted to a `Nat`).  The `video_id` primary key is the association-list
key and is not repeated inside the row. -/
structure Row where
  username : String
  views : Nat
  alert_sent : Bool
  checked_at : Nat
  deriving DecidableEq, Repr

/-- The `videos` table: at most one row per `video_id` (primary key). -/
abbrev Ledger := List (String × Row)

/-- Embeds `Database.should_alert` (monitor.py:52-58):
`views >= THRESHOLD and (result is None or result[0] == 0)` where `result`
is the `alert_sent` column of the row for `video_id`, if any. -/
def should_alert (thr : Nat) (db : Ledger) (video_id : String) (views : Nat) : Bool :=
  decide (views ≥ thr) &&
    (match db.lookup video_id with
     | none => true
     | some r => !r.alert_sent)

/-- Embeds `Database.save` (monitor.py:60-68):
`INSERT OR REPLACE INTO videos (video_id, username, views, checked_at)`.
SQLite's REPLACE conflict resolution deletes the row that violates the
primary-key constraint and inserts the new row; the `alert_sent` column is
not in the column list, so the inserted row gets its declared default `0`. -/
def save (db : Ledger) (video_id username : String) (views checked_at : Nat) : Ledger :=
  db.filter (fun p => p.1 != video_id) ++ [(video_id, ⟨username, views, false, checked_at⟩)]

/-- Embeds `Database.mark_sent` (monitor.py:70-75):
`UPDATE videos SET alert_sent=1 WHERE video_id=?`. -/
def mark_sent (db : Ledger) (video_id : String) : Ledger :=
  db.map (fun p => if p.1 = video_id then (p.1, { p.2 with alert_sent := true }) else p)

/-- Outcome of the `requests.post` call in `send_slack_alert`: either an HTTP
response with a status code, or a transport exception. -/
inductive HttpResult where
  | response (status : Nat)
  | exception
  deriving DecidableEq, Repr

/-- A normalized video record as built by `get_videos` (monitor.py:177-183). -/
structure Video where
  video_id : String
  username : String
  title : String
  views : Nat
  url : String
  deriving DecidableEq, Repr

/-- Embeds `send_slack_alert` (monitor.py:77-131): returns `false` when no
webhook is configured, `true` exactly on an HTTP 200 response, `false` on any
other status, and `false` when the transport raises (the `except` branch). -/
def send_slack_alert (webhook : String) (post : String → HttpResult) (_v : Video) : Bool :=
  if webhook = "" then false
  else
    match post webhook with
    | .response s => s == 200
    | .exception => false

/-- An observable interaction with an external collaborator during a run:
a scraper fetch for an account (`get_videos`' scraping calls) or an HTTP POST
to the webhook URL (`requests.post` inside `send_slack_alert`). -/
inductive Effect where
  | fetch (account : String)
  | httpPost (url : String)
  deriving DecidableEq, Repr

/-- The POSTs performed by one `send_slack_alert` call: none when the webhook
is unconfigured (the function returns before `requests.post`), one otherwise. -/
def sendEffects (webhook : String) : List Effect :=
  if webhook = "" then [] else [.httpPost webhook]

/-- Embeds the per-video body of `main`'s loop (monitor.py:220-228), given
that `db.save` succeeded: save the record, then `should_alert`, then attempt
the Slack alert and `mark_sent` only on confirmed delivery.  Returns the new
ledger, the trace of external effects, and whether `mark_sent` ran (the
`new_alerts += 1` branch). -/
def processVideo (thr checked_at : Nat) (webhook : String) (post : String → HttpResult)
    (db : Ledger) (v : Video) : Ledger × List Effect × Bool :=
  let db1 := save db v.video_id v.username v.views checked_at
  if should_alert thr db1 v.video_id v.views then
    if send_slack_alert webhook post v then
      (mark_sent db1 v.video_id, sendEffects webhook, true)
    else
      (db1, sendEffects webhook, false)
  else
    (db1, [], false)

/-- The observable outcome of (part of) a run of `main`: final ledger, trace
of external effects, number of alerts counted (`new_alerts`), ids of video
records whose processing completed, and whether some account's body raised
(and was caught by `main`'s per-account `except`). -/
structure RunResult where
  db : Ledger
  effects : List Effect
  alerts : Nat
  processed : List String
  errored : Bool
  deriving DecidableEq, Repr

/-- Embeds the `for video in videos` loop (monitor.py:220-228) under the
per-account `try`.  `failSave` is the storage-failure oracle: when
`db.save` raises for a record, the exception propagates out of the inner
loop, so the remaining records of this account are not processed. -/
def processVideos (thr checked_at : Nat) (webhook : String) (post : String → HttpResult)
    (failSave : String → Bool) (db : Ledger) : List Video → RunResult
  | [] => ⟨db, [], 0, [], false⟩
  | v :: vs =>
    if failSave v.video_id then ⟨db, [], 0, [], true⟩
    else
      let r1 := processVideo thr checked_at webhook post db v
      let rest := processVideos thr checked_at webhook post failSave r1.1 vs
      ⟨rest.db, r1.2.1 ++ rest.effects, (if r1.2.2 then 1 else 0) + rest.alerts,
        v.video_id :: rest.processed, rest.errored⟩

/-- Embeds the `for account in ACCOUNTS` loop (monitor.py:215-234): fetch the
account's videos (`get_videos` catches its own exceptions and returns `[]`,
so `fetch` is total), process them, and on an exception log and `continue`
with the next account. -/
def mainLoop (thr checked_at : Nat) (webhook : String) (post : String → HttpResult)
    (failSave : String → Bool) (fetch : String → List Video) (db : Ledger) :
    List String → RunResult
  | [] => ⟨db, [], 0, [], false⟩
  | a :: rest =>
    let r1 := processVideos thr checked_at webhook post failSave db (fetch a)
    let r2 := mainLoop thr checked_at webhook post failSave fetch r1.db rest
    ⟨r2.db, Effect.fetch a :: (r1.effects ++ r2.effects), r1.alerts + r2.alerts,
      r1.processed ++ r2.processed, r1.errored || r2.errored⟩

/-- Embeds `main` (monitor.py:192-242): the fatal configuration guards
(`if not SLACK_WEBHOOK: return`, then `if not ACCOUNTS: return`) followed by
the account loop. -/
def mainRun (webhook : String) (accounts : List String) (fetch : String → List Video)
    (thr checked_at : Nat) (post : String → HttpResult) (failSave : String → Bool)
    (db : Ledger) : RunResult :=
  if webhook = "" then ⟨db, [], 0, [], false⟩
  else if accounts.isEmpty then ⟨db, [], 0, [], false⟩
  else mainLoop thr checked_at webhook post failSave fetch db accounts

/-- The `stats` object of a content-metadata JSON file: its `playCount`
field, if present. -/
structure StatsBlob where
  playCount : Option Nat
  deriving DecidableEq, Repr

/-- A content-metadata JSON file (`temp/content_metadata/<id>.json`): its
optional `desc` and optional `stats` fields. -/
structure ContentMeta where
  desc : Option String
  stats : Option StatsBlob
  deriving DecidableEq, Repr

/-- An element of the user metadata's `itemList`: its `id` field, if present
(`item.get('id')`). -/
structure RawItem where
  id : Option String
  deriving DecidableEq, Repr

/-- Embeds `stats = video_data.get('stats', {}); views = stats.get('playCount', 0)`
(monitor.py:174-175). -/
def get_views (meta : ContentMeta) : Nat :=
  ((meta.stats.getD ⟨none⟩).playCount).getD 0

/-- Embeds one iteration of `get_videos`' normalization loop
(monitor.py:163-183) for a single item: skipped without output when the item
has no `id` (`continue`) or when the content-metadata file for the id does
not exist (the `os.path.exists` guard has no `else`); otherwise a `Video`
record is built with `desc` defaulting to `"No title"` and the view count
read through `get_views`. -/
def normalizeItem (username : String) (content : String → Option ContentMeta)
    (item : RawItem) : Option Video :=
  item.id.bind (fun vid =>
    (content vid).map (fun meta =>
      ⟨vid, username, meta.desc.getD "No title", get_views meta,
        "https://www.tiktok.com/@" ++ username ++ "/video/" ++ vid⟩))

/-- Embeds `get_videos`' output (monitor.py:153-186): the first 10 items of
`itemList` (`[:10]`), each normalized by `normalizeItem`, items yielding no
record silently dropped. -/
def get_videos (username : String) (content : String → Option ContentMeta)
    (items : List RawItem) : List Video :=
  (items.take 10).filterMap (normalizeItem username content)

/-- Whitespace as stripped by Python's `str.strip()` (ASCII part): space,
tab, newline, carriage return, form feed, vertical tab. -/
def isPyStripSpace (c : Char) : Bool :=
  c == ' ' || c == '\t' || c == '\n' || c == '\x0d' || c == '\x0c' || c == '\x0b'

/-- Embeds Python `s.split(',')` on the character list: split at every comma,
keeping empty pieces (so `"".split(',') == ['']`). -/
def splitComma : List Char → List (List Char)
  | [] => [[]]
  | c :: cs =>
    if c = ',' then [] :: splitComma cs
    else
      match splitComma cs with
      | [] => [[c]]
      | p :: ps => (c :: p) :: ps

/-- Embeds Python `s.strip()`: drop leading and trailing whitespace. -/
def pyStrip (l : List Char) : List Char :=
  ((l.dropWhile isPyStripSpace).reverse.dropWhile isPyStripSpace).reverse

/-- Embeds the `ACCOUNTS` configuration parsing (monitor.py:21):
`[acc.strip() for acc in os.getenv('ACCOUNTS', '').split(',') if acc.strip()]`.
Mapping `strip` then filtering non-empty results is equivalent to filtering
on the truthiness of `acc.strip()` and collecting `acc.strip()`. -/
def parseAccounts (s : List Char) : List String :=
  (((splitComma s).map pyStrip).filter (fun l => !l.isEmpty)).map String.mk

/-! ### Ledger lemmas -/

theorem lookup_filter_ne (db : Ledger) (vid : String) :
    (db.filter (fun p => p.1 != vid)).lookup vid = none := by
  rw [List.lookup_eq_none_iff]
  intro p hp
  have h := (List.mem_filter.mp hp).2
  simp only [bne_iff_ne] at h ⊢
  exact fun hh => h hh.symm

theorem lookup_save_self (db : Ledger) (vid u : String) (w t : Nat) :
    (save db vid u w t).lookup vid = some ⟨u, w, false, t⟩ := by
  unfold save
  rw [List.lookup_append, lookup_filter_ne]
  simp

theorem lookup_mark_sent_self (db : Ledger) (vid : String) :
    (mark_sent db vid).lookup vid
      = (db.lookup vid).map (fun r => { r with alert_sent := true }) := by
  induction db with
  | nil => rfl
  | cons p ps ih =>
    obtain ⟨k, r⟩ := p
    by_cases h : k = vid
    · subst h
      simp [mark_sent, List.lookup_cons_self]
    · have hbeq : (vid == k) = false := beq_eq_false_iff_ne.mpr (Ne.symm h)
      simpa [mark_sent, List.lookup_cons, hbeq, h] using ih

theorem mark_sent_twice (db : Ledger) (vid : String) :
    mark_sent (mark_sent db vid) vid = mark_sent db vid := by
  unfold mark_sent
  rw [List.map_map]
  apply List.map_congr_left
  intro p _
  by_cases h : p.1 = vid <;> simp [Function.comp, h]

/-! ### Claim theorems about the ledger operations -/

/-- C1: the claim says `Database.save` leaves `alert_sent` unchanged for an
existing row and that `alert_sent`, once true, never reverts to false.  The
code violates this: `INSERT OR REPLACE` with a column list omitting
`alert_sent` deletes the conflicting row and inserts a fresh one whose
`alert_sent` is the column default `0`.  This theorem evaluates `save` on a
ledger whose row for `"v1"` has `alert_sent = true` and shows the flag
reverts to `false`. -/
theorem save_resets_alert_flag :
    (save [("v1", ⟨"a", 5, true, 0⟩)] "v1" "a" 20000 1).lookup "v1"
      = some ⟨"a", 20000, false, 1⟩ := by decide

/-- C3: `Database.should_alert` returns true iff the view count meets the
threshold and either no row exists for the video or the existing row's
`alert_sent` is false; in particular a view count strictly below the
threshold always yields false. -/
theorem should_alert_spec (thr : Nat) (db : Ledger) (vid : String) (views : Nat) :
    (should_alert thr db vid views = true ↔
      views ≥ thr ∧ (db.lookup vid = none ∨
        ∃ r, db.lookup vid = some r ∧ r.alert_sent = false))
    ∧ (views < thr → should_alert thr db vid views = false) := by
  constructor
  · unfold should_alert
    cases hl : db.lookup vid with
    | none => simp
    | some r => simp [hl]
  · intro hlt
    unfold should_alert
    simp [Nat.not_le.mpr hlt]

/-- Witness for C3 at a concrete input: view count 5 is below threshold
10000, and `should_alert` returns false there. -/
theorem should_alert_spec_witness :
    5 < 10000 ∧ should_alert 10000 ([] : Ledger) "v" 5 = false :=
  ⟨by decide, (should_alert_spec 10000 [] "v" 5).2 (by decide)⟩

/-- C8: `Database.mark_sent` is idempotent — the SQL `UPDATE videos SET
alert_sent=1 WHERE video_id=?` applied twice equals applying it once — and
after the call the row for the video, if it exists, has `alert_sent = true`. -/
theorem mark_sent_idempotent (db : Ledger) (vid : String) :
    mark_sent (mark_sent db vid) vid = mark_sent db vid
    ∧ ∀ r, (mark_sent db vid).lookup vid = some r → r.alert_sent = true := by
  refine ⟨mark_sent_twice db vid, fun r hr => ?_⟩
  rw [lookup_mark_sent_self] at hr
  cases hl : db.lookup vid with
  | none => rw [hl] at hr; simp at hr
  | some r0 =>
    rw [hl] at hr
    injection hr with h
    rw [← h]

/-- Witness for C8 at a concrete ledger: marking twice equals marking once,
and the row looked up after `mark_sent` has its flag set. -/
theorem mark_sent_idempotent_witness :
    mark_sent (mark_sent [("v", (⟨"a", 1, false, 0⟩ : Row))] "v") "v"
      = mark_sent [("v", (⟨"a", 1, false, 0⟩ : Row))] "v"
    ∧ Row.alert_sent ⟨"a", 1, true, 0⟩ = true :=
  ⟨(mark_sent_idempotent [("v", ⟨"a", 1, false, 0⟩)] "v").1,
   (mark_sent_idempotent [("v", ⟨"a", 1, false, 0⟩)] "v").2 ⟨"a", 1, true, 0⟩ (by decide)⟩

/-! ### Claim theorems about the orchestrator's per-video step -/

/-- C2: the claim says that once a video reaches ALERTED (`alert_sent =
true`) no later poll triggers an alert for it again.  The code violates
this: each poll calls `Database.save` before `should_alert`, and `save`'s
`INSERT OR REPLACE` resets `alert_sent` to the column default `0`, so the
ALERTED state is lost on the very next poll.  This theorem runs two
successive polls of the same video (threshold 10000, views 20000, delivery
succeeding): the first poll alerts and records `alert_sent = true`, yet the
second poll alerts again. -/
theorem alerted_video_realerts :
    (processVideo 10000 0 "hook" (fun _ => HttpResult.response 200) []
        ⟨"v1", "acct", "t", 20000, "u"⟩).2.2 = true
    ∧ ((processVideo 10000 0 "hook" (fun _ => HttpResult.response 200) []
        ⟨"v1", "acct", "t", 20000, "u"⟩).1).lookup "v1" = some ⟨"acct", 20000, true, 0⟩
    ∧ (processVideo 10000 1 "hook" (fun _ => HttpResult.response 200)
        (processVideo 10000 0 "hook" (fun _ => HttpResult.response 200) []
          ⟨"v1", "acct", "t", 20000, "u"⟩).1
        ⟨"v1", "acct", "t", 20000, "u"⟩).2.2 = true := by decide

/-- C5: `mark_sent` runs only after a successful delivery.  When
`send_slack_alert` returns false for an alert-worthy video, the per-video
step leaves the just-saved row with `alert_sent = false` and counts no
alert, and a later poll of the same video with a view count still at or
above the threshold passes `should_alert` again. -/
theorem failed_send_leaves_unsent (thr t : Nat) (webhook : String)
    (post : String → HttpResult) (db : Ledger) (v : Video)
    (hsend : send_slack_alert webhook post v = false) (hviews : v.views ≥ thr) :
    processVideo thr t webhook post db v
      = (save db v.video_id v.username v.views t, sendEffects webhook, false)
    ∧ (save db v.video_id v.username v.views t).lookup v.video_id
      = some ⟨v.username, v.views, false, t⟩
    ∧ ∀ (u : String) (w t' : Nat), w ≥ thr →
        should_alert thr (save (save db v.video_id v.username v.views t) v.video_id u w t')
          v.video_id w = true := by
  have hlook := lookup_save_self db v.video_id v.username v.views t
  have halert : should_alert thr (save db v.video_id v.username v.views t)
      v.video_id v.views = true := by
    unfold should_alert
    rw [hlook]
    simp [hviews]
  refine ⟨?_, hlook, ?_⟩
  · simp [processVideo, halert, hsend]
  · intro u w t' hw
    have hlook2 := lookup_save_self (save db v.video_id v.username v.views t) v.video_id u w t'
    unfold should_alert
    rw [hlook2]
    simp [hw]

/-- Witness for C5 at a concrete input: the webhook transport raises (so
delivery fails), views 20000 meet threshold 10000, and a later poll at
views 15000 still passes `should_alert`. -/
theorem failed_send_leaves_unsent_witness :
    send_slack_alert "h" (fun _ => HttpResult.exception) ⟨"v1", "a", "t", 20000, "u"⟩ = false
    ∧ (⟨"v1", "a", "t", 20000, "u"⟩ : Video).views ≥ 10000
    ∧ should_alert 10000 (save (save [] "v1" "a" 20000 0) "v1" "b" 15000 7) "v1" 15000
      = true :=
  ⟨by decide, by decide,
   (failed_send_leaves_unsent 10000 0 "h" (fun _ => HttpResult.exception) []
      ⟨"v1", "a", "t", 20000, "u"⟩ (by decide) (by decide)).2.2 "b" 15000 7 (by decide)⟩

/-- C6: `send_slack_alert` is total (the Python function catches every
exception of the POST and the unconfigured-webhook case returns early, so
it never raises) and returns true exactly when the HTTP POST to the
configured webhook completes with status 200; every other case — empty
webhook, non-200 status, transport exception — returns false. -/
theorem send_slack_alert_spec (webhook : String) (post : String → HttpResult) (v : Video) :
    send_slack_alert webhook post v = true
      ↔ webhook ≠ "" ∧ post webhook = .response 200 := by
  unfold send_slack_alert
  by_cases h : webhook = ""
  · simp [h]
  · cases hr : post webhook with
    | response s => simp [h, hr]
    | exception => simp [h, hr]

/-! ### Claim theorems about `main`'s configuration guards -/

theorem mainRun_early_exit (webhook : String) (accounts : List String)
    (fetch : String → List Video) (thr t : Nat) (post : String → HttpResult)
    (failSave : String → Bool) (db : Ledger) (h : webhook = "" ∨ accounts = []) :
    mainRun webhook accounts fetch thr t post failSave db = ⟨db, [], 0, [], false⟩ := by
  rcases h with h | h
  · simp [mainRun, h]
  · subst h
    by_cases hw : webhook = "" <;> simp [mainRun, hw]

/-- C7: with an empty webhook URL or an empty account list, `main` returns
at its configuration guards before any processing: the ledger is untouched,
no scraper fetch and no webhook POST occurs (empty effect trace), and no
alert is counted. -/
theorem fatal_config_skips_processing (webhook : String) (accounts : List String)
    (fetch : String → List Video) (thr t : Nat) (post : String → HttpResult)
    (failSave : String → Bool) (db : Ledger) (h : webhook = "" ∨ accounts = []) :
    mainRun webhook accounts fetch thr t post failSave db = ⟨db, [], 0, [], false⟩ :=
  mainRun_early_exit webhook accounts fetch thr t post failSave db h

/-- Witness for C7 at a concrete input: the webhook is empty, and the run
touches nothing. -/
theorem fatal_config_skips_processing_witness :
    (("" : String) = "" ∨ (["acct"] : List String) = [])
    ∧ mainRun "" ["acct"] (fun _ => []) 10000 0 (fun _ => HttpResult.exception)
        (fun _ => false) [] = ⟨[], [], 0, [], false⟩ :=
  ⟨Or.inl rfl,
   fatal_config_skips_processing "" ["acct"] (fun _ => []) 10000 0
     (fun _ => HttpResult.exception) (fun _ => false) [] (Or.inl rfl)⟩

/-! ### Claim theorems about storage-failure scoping (C4) -/

theorem processVideos_processed (thr t : Nat) (webhook : String)
    (post : String → HttpResult) (failSave : String → Bool) (vs : List Video) :
    ∀ db : Ledger,
      (processVideos thr t webhook post failSave db vs).processed
        = (vs.takeWhile (fun v => !failSave v.video_id)).map (fun v => v.video_id) := by
  induction vs with
  | nil => intro db; rfl
  | cons v vs ih =>
    intro db
    by_cases h : failSave v.video_id
    · simp [processVideos, h, List.takeWhile_cons]
    · simp [processVideos, h, List.takeWhile_cons, ih]

/-- C4 counterexample: the claim says a storage failure on one record leaves
the remaining records of the same account processed.  In the code the
per-account `try/except` wraps the whole inner loop, so the exception from
`db.save` aborts the rest of that account's records.  Concretely, account
`a1` has records `v1` and `v2`; only `v1`'s save fails (`v2`'s does not),
yet no record of the account completes processing — `v2` included. -/
theorem storage_failure_counterexample :
    (fun i => i == "v1") "v2" = false
    ∧ (mainRun "w" ["a1"]
        (fun _ => [⟨"v1", "a1", "t", 5, "u"⟩, ⟨"v2", "a1", "t", 5, "u"⟩]) 10000 0
        (fun _ => HttpResult.exception) (fun i => i == "v1") []).processed = [] := by
  decide

/-- C4 amended: a storage failure while processing one record aborts the
remaining records of that account only; every other account is still
processed, and the run returns normally.  Formally, the records whose
processing completes are, account by account, exactly the fetched records
up to (excluding) the first one whose save fails — independently of
failures in other accounts. -/
theorem storage_failure_scoped_to_account (thr t : Nat) (webhook : String)
    (post : String → HttpResult) (failSave : String → Bool)
    (fetch : String → List Video) (db : Ledger) (accounts : List String) :
    (mainLoop thr t webhook post failSave fetch db accounts).processed
      = (accounts.map (fun a =>
          ((fetch a).takeWhile (fun v => !failSave v.video_id)).map
            (fun v => v.video_id))).flatten := by
  induction accounts generalizing db with
  | nil => rfl
  | cons a rest ih =>
    simp [mainLoop, processVideos_processed, ih]

/-! ### Claim theorems about the normalizer (C9) -/

/-- C9: in `get_videos`, an item with a resolvable id whose content-metadata
file was not retrieved is silently omitted — it contributes no video record
at all (first conjunct), rather than a record with `views` defaulted to 0;
the zero default arises only when the metadata is present and its stats
object lacks `playCount` (second conjunct). -/
theorem missing_metadata_omitted (username : String)
    (content : String → Option ContentMeta) (items : List RawItem) (vid : String) :
    (content vid = none → ∀ v ∈ get_videos username content items, v.video_id ≠ vid)
    ∧ ∀ item : RawItem, item.id = some vid → ∀ (meta : ContentMeta) (blob : StatsBlob),
        content vid = some meta → meta.stats = some blob → blob.playCount = none →
        normalizeItem username content item
          = some ⟨vid, username, meta.desc.getD "No title", 0,
              "https://www.tiktok.com/@" ++ username ++ "/video/" ++ vid⟩ := by
  constructor
  · intro hc v hv
    obtain ⟨item, _, hn⟩ := List.mem_filterMap.mp hv
    simp only [normalizeItem, Option.bind_eq_some, Option.map_eq_some'] at hn
    obtain ⟨vid', hid, meta, hcv, hrec⟩ := hn
    intro hvid
    rw [← hrec] at hvid
    simp only at hvid
    rw [hvid] at hcv
    rw [hc] at hcv
    exact absurd hcv (by simp)
  · intro item hid meta blob hc hstats hplay
    simp [normalizeItem, hid, hc, get_views, hstats, hplay]

/-- Witness for C9 at a concrete input: metadata exists only for id `"b"`
(with a stats object lacking `playCount`); the item with id `"a"` yields no
record — the only output record is `"b"`'s, with `views = 0`. -/
theorem missing_metadata_omitted_witness :
    (fun i => if i = "b" then some (⟨none, some ⟨none⟩⟩ : ContentMeta) else none) "a" = none
    ∧ Video.video_id ⟨"b", "u", "No title", 0, "https://www.tiktok.com/@u/video/b"⟩ ≠ "a"
    ∧ normalizeItem "u"
        (fun i => if i = "b" then some (⟨none, some ⟨none⟩⟩ : ContentMeta) else none)
        ⟨some "b"⟩
      = some ⟨"b", "u", "No title", 0, "https://www.tiktok.com/@u/video/b"⟩ :=
  ⟨by decide,
   (missing_metadata_omitted "u"
      (fun i => if i = "b" then some ⟨none, some ⟨none⟩⟩ else none)
      [⟨some "a"⟩, ⟨some "b"⟩] "a").1 (by decide)
     ⟨"b", "u", "No title", 0, "https://www.tiktok.com/@u/video/b"⟩ (by decide),
   (missing_metadata_omitted "u"
      (fun i => if i = "b" then some ⟨none, some ⟨none⟩⟩ else none)
      [⟨some "a"⟩, ⟨some "b"⟩] "b").2 ⟨some "b"⟩ (by decide) ⟨none, some ⟨none⟩⟩ ⟨none⟩
     (by decide) (by decide) (by decide)⟩

/-! ### Claim theorems about `ACCOUNTS` parsing (C10) -/

theorem splitComma_chars (s : List Char) :
    ∀ p ∈ splitComma s, ∀ c ∈ p, c ∈ s ∧ c ≠ ',' := by
  induction s with
  | nil =>
    intro p hp c hc
    simp only [splitComma, List.mem_singleton] at hp
    subst hp
    simp at hc
  | cons a as ih =>
    intro p hp c hc
    by_cases ha : a = ','
    · simp only [splitComma, if_pos ha] at hp
      rcases List.mem_cons.mp hp with h | h
      · subst h; simp at hc
      · obtain ⟨hmem, hne⟩ := ih p h c hc
        exact ⟨List.mem_cons_of_mem _ hmem, hne⟩
    · simp only [splitComma, if_neg ha] at hp
      cases hsc : splitComma as with
      | nil =>
        rw [hsc] at hp
        simp only [List.mem_singleton] at hp
        subst hp
        rcases List.mem_singleton.mp hc with rfl
        exact ⟨List.mem_cons_self _ _, ha⟩
      | cons p0 ps =>
        rw [hsc] at hp
        rcases List.mem_cons.mp hp with h | h
        · subst h
          rcases List.mem_cons.mp hc with h2 | h2
          · subst h2
            exact ⟨List.mem_cons_self _ _, ha⟩
          · obtain ⟨hmem, hne⟩ := ih p0 (by rw [hsc]; exact List.mem_cons_self _ _) c h2
            exact ⟨List.mem_cons_of_mem _ hmem, hne⟩
        · obtain ⟨hmem, hne⟩ := ih p (by rw [hsc]; exact List.mem_cons_of_mem _ h) c hc
          exact ⟨List.mem_cons_of_mem _ hmem, hne⟩

theorem pyStrip_all_space (l : List Char) (h : ∀ c ∈ l, isPyStripSpace c = true) :
    pyStrip l = [] := by
  have h1 : l.dropWhile isPyStripSpace = [] := List.dropWhile_eq_nil_iff.mpr h
  simp [pyStrip, h1]

/-- C10: the comma-separated `ACCOUNTS` configuration is parsed by stripping
each comma-separated piece and dropping pieces that strip to empty, so a
configuration consisting only of commas and whitespace parses to the empty
account list, and `main` then takes the fatal no-accounts exit: untouched
ledger, empty effect trace, zero alerts. -/
theorem commas_whitespace_no_accounts (s : List Char)
    (h : ∀ c ∈ s, c = ',' ∨ isPyStripSpace c = true) :
    parseAccounts s = []
    ∧ ∀ (webhook : String) (fetch : String → List Video) (thr t : Nat)
        (post : String → HttpResult) (failSave : String → Bool) (db : Ledger),
        mainRun webhook (parseAccounts s) fetch thr t post failSave db
          = ⟨db, [], 0, [], false⟩ := by
  have hparse : parseAccounts s = [] := by
    unfold parseAccounts
    have hfilter : ((splitComma s).map pyStrip).filter (fun l => !l.isEmpty) = [] := by
      rw [List.filter_eq_nil_iff]
      intro a ha
      obtain ⟨p, hp, rfl⟩ := List.mem_map.mp ha
      have hall : ∀ c ∈ p, isPyStripSpace c = true := by
        intro c hc
        obtain ⟨hmem, hne⟩ := splitComma_chars s p hp c hc
        rcases h c hmem with h1 | h1
        · exact absurd h1 hne
        · exact h1
      rw [pyStrip_all_space p hall]
      simp
    rw [hfilter]
    rfl
  exact ⟨hparse, fun webhook fetch thr t post failSave db =>
    mainRun_early_exit webhook (parseAccounts s) fetch thr t post failSave db (Or.inr hparse)⟩

/-- Witness for C10 at a concrete input: the configuration `", \t,"` parses
to no accounts and the run exits at the no-accounts guard. -/
theorem commas_whitespace_no_accounts_witness :
    parseAccounts [',', ' ', '\t', ','] = []
    ∧ mainRun "w" (parseAccounts [',', ' ', '\t', ',']) (fun _ => []) 10000 0
        (fun _ => HttpResult.exception) (fun _ => false) [] = ⟨[], [], 0, [], false⟩ :=
  ⟨(commas_whitespace_no_accounts [',', ' ', '\t', ','] (by decide)).1,
   (commas_whitespace_no_accounts [',', ' ', '\t', ','] (by decide)).2 "w" (fun _ => [])
     10000 0 (fun _ => HttpResult.exception) (fun _ => false) []⟩

end Monitor
